import Mathlib

/-!
Verification of the kj diagnostic / null-safety core (capnproto, early kj).

The `Maybe` / `NullableValue` container and the `ArrayPtr` view are embedded
from `src/c++/src/kj/common.h`.  The logging / assertion engine lives in
`logging.h` / `logging.c++`, which are not part of this source tree (only the
test `logging-test.c++` is); those operations are modelled from the spec, with
the exact rendered strings pinned by the EXPECT_EQ assertions of the test.

C++ raw pointers are embedded as `Option` (none = nullptr, some v = pointer to
a value v).  Machine integers carry no overflow concerns in the modelled code
paths, so they are embedded as `Nat` / `Int`.
-/

namespace KJ

/-! ## Maybe / NullableValue (common.h) -/

/-- Embeds `kj::internal::NullableValue<T>`: a boolean `isSet` flag plus a
union storage cell that holds a live `T` exactly when `isSet` is true.  The
storage is embedded as `Option T`: `some v` when a live value `v` is present,
`none` when the storage is dead. -/
structure NullableValue (T : Type) where
  isSet : Bool
  value : Option T
  deriving Repr, DecidableEq

/-- `NullableValue() : isSet(false)` — the empty constructor. -/
def NullableValue.empty (T : Type) : NullableValue T :=
  { isSet := false, value := none }

/-- `NullableValue(const T& t) : isSet(true) { ctor(value, t); }` -/
def NullableValue.ofValue {T : Type} (t : T) : NullableValue T :=
  { isSet := true, value := some t }

/-- `NullableValue(const T* t) : isSet(t != nullptr) { if (isSet) ctor(value, *t); }`
(common.h lines 322-325).  The pointer is embedded as `Option T`. -/
def NullableValue.fromPointer {T : Type} (t : Option T) : NullableValue T :=
  { isSet := t.isSome
  , value := match t with
      | some v => some v
      | none => none }

/-- `NullableValue(NullableValue&& other) : isSet(other.isSet) { if (isSet)
ctor(value, kj::mv(other.value)); }` (common.h lines 287-292).  Returns the
newly constructed object together with the state of the move source after the
construction: the source's `isSet` flag is read but never written, and its
storage still holds a live (moved-from) `T`, so the source comes back
unchanged. -/
def NullableValue.moveConstruct {T : Type} (other : NullableValue T) :
    NullableValue T × NullableValue T :=
  ({ isSet := other.isSet
   , value := if other.isSet then other.value else none }, other)

/-- `operator=(NullableValue&& other)` (common.h lines 349-360), for distinct
objects (`&other != this`): destroy any held value, copy `other.isSet`, and if
set move-construct from `other.value`.  Returns the assigned-to object and the
state of the source afterwards; the source's flag and storage liveness are
never modified.  The destination's previous value is destroyed outright, so
the result does not depend on it. -/
def NullableValue.moveAssign {T : Type} (_dst other : NullableValue T) :
    NullableValue T × NullableValue T :=
  ({ isSet := other.isSet
   , value := if other.isSet then other.value else none }, other)

/-- `operator==(decltype(nullptr)) const { return !isSet; }` -/
def NullableValue.eqNull {T : Type} (n : NullableValue T) : Bool := !n.isSet

/-- `operator!=(decltype(nullptr)) const { return isSet; }` -/
def NullableValue.neNull {T : Type} (n : NullableValue T) : Bool := n.isSet

/-- Embeds `kj::Maybe<T>` (common.h lines 404-448): a wrapper around a single
`internal::NullableValue<T>` member named `ptr`. -/
structure Maybe (T : Type) where
  ptr : NullableValue T
  deriving Repr, DecidableEq

/-- `Maybe(const T* t) noexcept : ptr(t)` (common.h line 410): forwards the
raw pointer to the NullableValue pointer constructor. -/
def Maybe.fromPointer {T : Type} (t : Option T) : Maybe T :=
  { ptr := NullableValue.fromPointer t }

/-- `Maybe(Maybe&& other) : ptr(kj::mv(other.ptr))` (common.h line 411):
move-constructs the member, returning the new Maybe and the source's state
afterwards. -/
def Maybe.moveConstruct {T : Type} (other : Maybe T) : Maybe T × Maybe T :=
  let r := NullableValue.moveConstruct other.ptr
  ({ ptr := r.1 }, { ptr := r.2 })

/-- `operator=(Maybe&& other) { ptr = kj::mv(other.ptr); return *this; }`
(common.h line 429). -/
def Maybe.moveAssign {T : Type} (dst other : Maybe T) : Maybe T × Maybe T :=
  let r := NullableValue.moveAssign dst.ptr other.ptr
  ({ ptr := r.1 }, { ptr := r.2 })

/-- `operator==(decltype(nullptr)) const { return ptr == nullptr; }` -/
def Maybe.eqNull {T : Type} (m : Maybe T) : Bool := m.ptr.eqNull

/-- `operator!=(decltype(nullptr)) const { return ptr != nullptr; }` -/
def Maybe.neNull {T : Type} (m : Maybe T) : Bool := m.ptr.neNull

/-! ## ArrayPtr (common.h) -/

/-- Embeds `kj::ArrayPtr<T>`: a pointer + length view over contiguous
elements.  The window of elements the view designates is embedded as the list
`elems`; `size_` is its length. -/
structure ArrayPtr (T : Type) where
  elems : List T
  deriving Repr, DecidableEq

/-- `size() const { return size_; }` -/
def ArrayPtr.size {T : Type} (a : ArrayPtr T) : Nat := a.elems.length

/-- `operator[](size_t index)` (common.h lines 501-504): in a debug build,
`KJ_IREQUIRE(index < size_, "Out-of-bounds ArrayPtr access.")` takes the
precondition-violation branch (which never returns) when the bound fails;
otherwise the element at `index` is read and returned. -/
def ArrayPtr.index {T : Type} (a : ArrayPtr T) (i : Nat) : Except String T :=
  if h : i < a.elems.length then
    Except.ok (a.elems.get ⟨i, h⟩)
  else
    Except.error "Out-of-bounds ArrayPtr access."

/-- `slice(size_t start, size_t end)` (common.h lines 511-514): in a debug
build, `KJ_IREQUIRE(start <= end && end <= size_, "Out-of-bounds
ArrayPtr::slice().")`, then returns `ArrayPtr(ptr + start, end - start)` —
the window of elements at indices `[start, end)`. -/
def ArrayPtr.slice {T : Type} (a : ArrayPtr T) (start stop : Nat) :
    Except String (ArrayPtr T) :=
  if start ≤ stop ∧ stop ≤ a.elems.length then
    Except.ok { elems := (a.elems.drop start).take (stop - start) }
  else
    Except.error "Out-of-bounds ArrayPtr::slice()."

/-! ## Severity, arguments and message rendering (logging.h, modelled)

The implementation file of the logging engine is not part of this source
tree; the definitions below are modelled from the spec, with every concrete
rendered string pinned by the EXPECT_EQ assertions of
`src/c++/src/kj/logging-test.c++`. -/

/-- Modelled from the spec: the missing `Log::Severity` enum of logging.h.
Severities are totally ordered info < warning < error < fatal-bug. -/
inductive Severity where
  | info
  | warning
  | error
  | fatal
  deriving Repr, DecidableEq

/-- Modelled from the spec: the numeric rank giving the total order
info < warning < error < fatal-bug. -/
def Severity.level : Severity → Nat
  | .info => 0
  | .warning => 1
  | .error => 2
  | .fatal => 3

/-- Modelled from the spec: the lowercase rendering of a severity used in the
`severity: file:line: text` log format. -/
def Severity.name : Severity → String
  | .info => "info"
  | .warning => "warning"
  | .error => "error"
  | .fatal => "fatal"

/-- Modelled from the spec: the default process-wide log threshold is
warning — info is suppressed unless explicitly raised. -/
def defaultLogLevel : Severity := Severity.warning

/-- Modelled from the spec: one extra diagnostic argument of a logging or
assertion macro — either a named expression (rendered `name = value`) or a
bare string literal (rendered as the literal itself). -/
inductive Arg where
  | named (name value : String)
  | literal (text : String)
  deriving Repr, DecidableEq

/-- Modelled from the spec: rendering of a single extra argument. -/
def Arg.render : Arg → String
  | .named n v => n ++ " = " ++ v
  | .literal s => s

/-- Modelled from the spec: extra arguments are appended in left-to-right
order, each preceded by the separator `; `. -/
def renderArgs : List Arg → String
  | [] => ""
  | a :: rest => "; " ++ a.render ++ renderArgs rest

/-- The `file:line` origin rendering (matches the `fileLine` helper of
logging-test.c++). -/
def fileLine (file : String) (line : Nat) : String :=
  file ++ ":" ++ toString line

/-- Modelled from the spec: the failure taxonomy natures whose rendered
lead-in texts are pinned by logging-test.c++.  The remaining natures
(disconnected, overloaded, unknown) have no rendering pinned by this source
tree and play no role in the claims, so they are omitted. -/
inductive Nature where
  | bug
  | failedRequirement
  | osError
  deriving Repr, DecidableEq

/-- Modelled from the spec: the fixed lead-in text for each nature. -/
def Nature.leadIn : Nature → String
  | .bug => "bug in code: "
  | .failedRequirement => "requirement not met: "
  | .osError => "error from OS: "

/-- Modelled from the spec: the message suffix of a failed condition check —
the word `expected `, the stringified condition expression, then the extra
arguments. -/
def assertSuffix (condText : String) (args : List Arg) : String :=
  "expected " ++ condText ++ renderArgs args

/-- Modelled from the spec: the message of an unconditional failure
(`KJ_FAIL_ASSERT`): the lead-in followed by the extra arguments joined with
`; ` (pinned by the test: `KJ_FAIL_ASSERT("foo")` renders
`bug in code: foo`). -/
def failMessage (nature : Nature) (args : List Arg) : String :=
  nature.leadIn ++ String.intercalate "; " (args.map Arg.render)

/-- Modelled from the spec: the message of a failed syscall — the os-error
lead-in, the call's source text, `: `, the platform error string, then the
extra arguments. -/
def syscallMessage (callText errStr : String) (args : List Arg) : String :=
  Nature.osError.leadIn ++ callText ++ ": " ++ errStr ++ renderArgs args

/-! ## Context chain and exception rendering (logging.h/c++, modelled) -/

/-- Modelled from the spec: one frame of the per-thread context chain —
file, line, description and captured extra arguments.  The chain is a singly
linked stack, newest (innermost) frame first. -/
structure ContextFrame where
  file : String
  line : Nat
  description : String
  args : List Arg
  deriving Repr, DecidableEq

/-- Modelled from the spec: a context frame renders as one line
`file:line: context: description[; extra args]`. -/
def ContextFrame.render (f : ContextFrame) : String :=
  fileLine f.file f.line ++ ": context: " ++ f.description ++ renderArgs f.args ++ "\n"

/-- Modelled from the spec: the exception's own line,
`file:line: <message>` (the mock callback of the test strips the trailing
stack-trace line, so the rendering modelled here ends at this line). -/
def exceptionLine (file : String) (line : Nat) (message : String) : String :=
  fileLine file line ++ ": " ++ message ++ "\n"

/-- Modelled from the spec: when an exception is about to be delivered, the
engine walks the context chain from innermost to outermost and prepends each
frame's rendered line in front of the text accumulated so far, starting from
the exception's own line.  (Walking innermost→outermost while prepending
places the outermost frame's line first in the final text, which is exactly
the order the EXPECT_EQ strings of TEST(Logging, Context) pin down.) -/
def exceptionText (chain : List ContextFrame) (file : String) (line : Nat)
    (message : String) : String :=
  chain.foldl (fun acc f => f.render ++ acc) (exceptionLine file line message)

/-- Sequential rendering of a list of context frames, first frame's line
first. -/
def renderFrames : List ContextFrame → String
  | [] => ""
  | f :: rest => f.render ++ renderFrames rest

/-! ## Handler events and dispatch (logging.h/c++, modelled) -/

/-- Modelled from the spec: one invocation of the active handler — the
handler capability offers `logMessage`, `onRecoverableException` and
`onFatalException`, and the engine calls exactly one of these per event. -/
inductive HandlerEvent where
  | logMessage (text : String)
  | recoverableException (text : String)
  | fatalException (text : String)
  deriving Repr, DecidableEq

/-- Modelled from the spec: where control is after a macro invocation.
`fellThrough st` — the condition held, execution continues at the call site;
`recovered st` — the handler returned, the recovery block ran (transforming
the local state), and its `break` / fall-through exited the enclosing
construct so execution continues after it; `unwound` — a fatal dispatch:
control never returns normally to the call site. -/
inductive Outcome (σ : Type) where
  | fellThrough (st : σ)
  | recovered (st : σ)
  | unwound
  deriving Repr, DecidableEq

/-- Modelled from the spec: `log(severity, file, line, text)` — if
`severity < threshold`, no handler invocation; else exactly one `logMessage`
call with the exact `severity: file:line: text\n` rendering. -/
def log (threshold sev : Severity) (file : String) (line : Nat)
    (text : String) : List HandlerEvent :=
  if sev.level < threshold.level then []
  else [HandlerEvent.logMessage
    (sev.name ++ ": " ++ fileLine file line ++ ": " ++ text ++ "\n")]

/-- Modelled from the spec: `assertCondition` / `requireCondition` — if the
condition holds, no-op; otherwise build an Exception from the nature's
lead-in and the stringified condition plus extra args, prefix the rendered
context frames, and dispatch: recoverable if a recovery block is present
(control resumes inside that block, then continues after the construct),
else fatal (the handler never returns to the call site). -/
def checkCondition (σ : Type) (nature : Nature) (chain : List ContextFrame)
    (file : String) (line : Nat) (cond : Bool) (condText : String)
    (args : List Arg) (recovery : Option (σ → σ)) (st : σ) :
    List HandlerEvent × Outcome σ :=
  if cond then ([], Outcome.fellThrough st)
  else
    let text := exceptionText chain file line (nature.leadIn ++ assertSuffix condText args)
    match recovery with
    | some r => ([HandlerEvent.recoverableException text], Outcome.recovered (r st))
    | none => ([HandlerEvent.fatalException text], Outcome.unwound)

/-- Modelled from the spec: the assertion operation (`KJ_ASSERT`), nature
bug-in-code. -/
def assertCondition (σ : Type) (chain : List ContextFrame) (file : String)
    (line : Nat) (cond : Bool) (condText : String) (args : List Arg)
    (recovery : Option (σ → σ)) (st : σ) : List HandlerEvent × Outcome σ :=
  checkCondition σ Nature.bug chain file line cond condText args recovery st

/-- Modelled from the spec: `unconditionalFailure` (`KJ_FAIL_ASSERT`) —
always raises, nature bug-in-code, message built from the extra args with no
condition text. -/
def unconditionalFailure (σ : Type) (chain : List ContextFrame) (file : String)
    (line : Nat) (args : List Arg) (recovery : Option (σ → σ)) (st : σ) :
    List HandlerEvent × Outcome σ :=
  let text := exceptionText chain file line (failMessage Nature.bug args)
  match recovery with
  | some r => ([HandlerEvent.recoverableException text], Outcome.recovered (r st))
  | none => ([HandlerEvent.fatalException text], Outcome.unwound)

/-- Modelled from the spec: the syscall wrapper (`KJ_SYSCALL`) after its
retry-on-interruption loop has produced a non-interrupted outcome
`callResult` (the EINTR retry itself is not modelled; `callResult` is the
first non-interrupted result).  A negative result is a failure: build an
os-error Exception from the call's source text, the platform error string
for the captured errno, and the extra args, and dispatch as recoverable or
fatal; the third component is the value left in the captured result
variable. -/
def syscall (σ : Type) (chain : List ContextFrame) (file : String) (line : Nat)
    (callResult : Int) (errStr : String) (callText : String) (args : List Arg)
    (recovery : Option (σ → σ)) (st : σ) :
    List HandlerEvent × Outcome σ × Int :=
  if callResult < 0 then
    let text := exceptionText chain file line (syscallMessage callText errStr args)
    match recovery with
    | some r => ([HandlerEvent.recoverableException text], Outcome.recovered (r st), callResult)
    | none => ([HandlerEvent.fatalException text], Outcome.unwound, callResult)
  else ([], Outcome.fellThrough st, callResult)

/-! ## Helper lemmas -/

/-- renderFrames distributes over list append. -/
theorem renderFrames_append (l1 l2 : List ContextFrame) :
    renderFrames (l1 ++ l2) = renderFrames l1 ++ renderFrames l2 := by
  induction l1 with
  | nil =>
    simp [renderFrames]
  | cons f rest ih =>
    simp [renderFrames, ih, String.append_assoc]

/-- The prepending fold of exception rendering equals sequential rendering of
the reversed chain followed by the base text. -/
theorem foldl_prepend_eq (chain : List ContextFrame) (base : String) :
    chain.foldl (fun acc f => f.render ++ acc) base
      = renderFrames chain.reverse ++ base := by
  induction chain generalizing base with
  | nil =>
    simp [renderFrames]
  | cons f rest ih =>
    rw [List.foldl_cons, ih, List.reverse_cons, renderFrames_append]
    simp [renderFrames, String.append_assoc]

/-- Characterization of the full exception rendering: the reversed
(outermost-first) context lines, then the exception's own line. -/
theorem exceptionText_eq (chain : List ContextFrame) (file : String)
    (line : Nat) (message : String) :
    exceptionText chain file line message
      = renderFrames chain.reverse ++ exceptionLine file line message :=
  foldl_prepend_eq chain (exceptionLine file line message)

end KJ

namespace KJ

/-! ## Claims C8, C9, C10 -/

/-- C8: constructing a Maybe from a raw pointer `p` yields an empty container
(equal to null) when `p` is null, and a container holding a copy of the
pointee (not equal to null) when `p` is non-null. -/
theorem maybe_fromPointer_spec {T : Type} (p : Option T) :
    (p = none → (Maybe.fromPointer p).eqNull = true) ∧
    (∀ v, p = some v →
      (Maybe.fromPointer p).neNull = true ∧
      (Maybe.fromPointer p).ptr.value = some v) := by
  constructor
  · intro h
    subst h
    rfl
  · intro v h
    subst h
    exact ⟨rfl, rfl⟩

/-- Witness for C8 at concrete inputs: the null pointer gives an empty Maybe,
and a pointer to 5 gives a Maybe holding 5. -/
theorem maybe_fromPointer_spec_witness :
    (Maybe.fromPointer (none : Option Nat)).eqNull = true ∧
    (Maybe.fromPointer (some 5)).neNull = true ∧
    (Maybe.fromPointer (some 5)).ptr.value = some 5 :=
  ⟨(maybe_fromPointer_spec (none : Option Nat)).1 rfl,
   ((maybe_fromPointer_spec (some 5)).2 5 rfl).1,
   ((maybe_fromPointer_spec (some 5)).2 5 rfl).2⟩

/-- C9: element access reaches the element-read path only under the
precondition `i < size` — under it the i-th element is returned and the
failure branch is unreachable, and without it the out-of-bounds
precondition-violation branch is taken — and `slice start stop` returns the
view of the elements at indices `[start, stop)` (length `stop - start`, j-th
element the `(start + j)`-th of the original) only under the precondition
`start ≤ stop ∧ stop ≤ size`, taking the precondition-violation branch
otherwise. -/
theorem arrayPtr_bounds_spec {T : Type} (a : ArrayPtr T) :
    (∀ i : Nat, ∀ h : i < a.size,
      a.index i = Except.ok (a.elems.get ⟨i, h⟩)) ∧
    (∀ i : Nat, ¬ i < a.size →
      a.index i = Except.error "Out-of-bounds ArrayPtr access.") ∧
    (∀ start stop : Nat, start ≤ stop → stop ≤ a.size →
      ∃ s : ArrayPtr T, a.slice start stop = Except.ok s ∧
        s.size = stop - start ∧
        ∀ j : Nat, j < stop - start → s.elems[j]? = a.elems[start + j]?) ∧
    (∀ start stop : Nat, ¬ (start ≤ stop ∧ stop ≤ a.size) →
      a.slice start stop = Except.error "Out-of-bounds ArrayPtr::slice().") := by
  refine ⟨?_, ?_, ?_, ?_⟩
  · intro i h
    simp only [ArrayPtr.size] at h
    unfold ArrayPtr.index
    rw [dif_pos h]
  · intro i h
    simp only [ArrayPtr.size] at h
    unfold ArrayPtr.index
    rw [dif_neg h]
  · intro start stop h1 h2
    refine ⟨{ elems := (a.elems.drop start).take (stop - start) }, ?_, ?_, ?_⟩
    · unfold ArrayPtr.slice
      rw [if_pos ⟨h1, h2⟩]
    · show ((a.elems.drop start).take (stop - start)).length = stop - start
      rw [List.length_take, List.length_drop]
      exact min_eq_left (Nat.sub_le_sub_right h2 start)
    · intro j hj
      show ((a.elems.drop start).take (stop - start))[j]? = a.elems[start + j]?
      rw [List.getElem?_take_of_lt hj, List.getElem?_drop]
  · intro start stop h
    simp only [ArrayPtr.size] at h
    unfold ArrayPtr.slice
    rw [if_neg h]

/-- Witness for C9: on the view of [10, 20, 30], index 1 reads 20 while
index 3 takes the out-of-bounds branch; slice 1 3 yields the two-element
view [20, 30] while slice 2 1 (start > stop) and slice 1 4 (stop > size)
take the precondition-violation branch. -/
theorem arrayPtr_bounds_spec_witness :
    (ArrayPtr.index { elems := [10, 20, 30] } 1 = Except.ok 20) ∧
    (ArrayPtr.index { elems := [10, 20, 30] } 3
      = Except.error "Out-of-bounds ArrayPtr access.") ∧
    (∃ s : ArrayPtr Nat, ArrayPtr.slice { elems := [10, 20, 30] } 1 3 = Except.ok s ∧
      s.size = 3 - 1 ∧
      ∀ j : Nat, j < 3 - 1 → s.elems[j]? = [10, 20, 30][1 + j]?) ∧
    (ArrayPtr.slice { elems := [10, 20, 30] } 2 1
      = Except.error "Out-of-bounds ArrayPtr::slice().") ∧
    (ArrayPtr.slice { elems := [10, 20, 30] } 1 4
      = Except.error "Out-of-bounds ArrayPtr::slice().") :=
  ⟨(arrayPtr_bounds_spec { elems := [10, 20, 30] }).1 1 (by decide),
   (arrayPtr_bounds_spec { elems := [10, 20, 30] }).2.1 3 (by decide),
   (arrayPtr_bounds_spec { elems := [10, 20, 30] }).2.2.1 1 3 (by decide) (by decide),
   (arrayPtr_bounds_spec { elems := [10, 20, 30] }).2.2.2 2 1 (by decide),
   (arrayPtr_bounds_spec { elems := [10, 20, 30] }).2.2.2 1 4 (by decide)⟩

/-- C10: move-constructing or move-assigning a Maybe from a non-empty source
leaves the source still non-empty: the source's is-set flag is read, never
cleared, so the moved-from Maybe still compares not-equal to null (and the
destination received the value). -/
theorem maybe_move_leaves_source_set {T : Type} (m : Maybe T) (d : Maybe T)
    (h : m.neNull = true) :
    ((Maybe.moveConstruct m).2).neNull = true ∧
    ((Maybe.moveConstruct m).1).neNull = true ∧
    ((Maybe.moveAssign d m).2).neNull = true ∧
    ((Maybe.moveAssign d m).1).neNull = true := by
  refine ⟨h, ?_, h, ?_⟩ <;>
    simp only [Maybe.moveConstruct, Maybe.moveAssign, Maybe.neNull,
      NullableValue.moveConstruct, NullableValue.moveAssign,
      NullableValue.neNull] <;>
    exact h

/-! ## Claims C1 .. C7 -/

/-- C1 counterexample: at the concrete two-frame scenario of
TEST(Logging, Context) — innermost frame "baz" (line 199, with extra args),
outermost frame "foo" (line 188) — the rendered exception text is NOT the
innermost frame's line first: the claimed innermost-to-outermost layout
(baz's line, then foo's line, then the failure line) differs from what the
engine renders. -/
theorem context_innermost_first_false :
    exceptionText
        [⟨"logging-test.c++", 199, "baz",
            [Arg.named "i" "123", Arg.literal "corge", Arg.named "str" "qux"]⟩,
         ⟨"logging-test.c++", 188, "foo", []⟩]
        "logging-test.c++" 200 "bug in code: bar"
      ≠ ContextFrame.render ⟨"logging-test.c++", 199, "baz",
            [Arg.named "i" "123", Arg.literal "corge", Arg.named "str" "qux"]⟩
        ++ (ContextFrame.render ⟨"logging-test.c++", 188, "foo", []⟩
        ++ exceptionLine "logging-test.c++" 200 "bug in code: bar") := by
  decide

/-- C1 amended: for every exception delivered while context frames are
established, the rendered text contains one line per context frame, each
being that frame's `file:line: context: description[; extra args]` rendering,
and these context lines appear in outermost-to-innermost order (the reversal
of the newest-first chain) before the exception's own `file:line: <message>`
line. -/
theorem context_lines_outermost_first (chain : List ContextFrame)
    (file : String) (line : Nat) (message : String) :
    exceptionText chain file line message
      = renderFrames chain.reverse ++ exceptionLine file line message :=
  exceptionText_eq chain file line message

/-- C2: for a failure raised inside context "foo" (outer) and context "baz"
with extra args (inner), the dispatched fatal exception's text is exactly
foo's context line, then baz's context line (extra args rendered
`; i = 123; corge; str = qux`), then the failure's own line. -/
theorem nested_context_render :
    unconditionalFailure Unit
        [⟨"logging-test.c++", 199, "baz",
            [Arg.named "i" "123", Arg.literal "corge", Arg.named "str" "qux"]⟩,
         ⟨"logging-test.c++", 188, "foo", []⟩]
        "logging-test.c++" 200 [Arg.literal "bar"] none ()
      = ([HandlerEvent.fatalException
            ("logging-test.c++:188: context: foo\n"
              ++ "logging-test.c++:199: context: baz; i = 123; corge; str = qux\n"
              ++ "logging-test.c++:200: bug in code: bar\n")],
         Outcome.unwound) := by
  decide

/-- C3: the rendered message suffix for condition text "1 == 2" with extra
args i = 123, bare literal "hi", str = foo is exactly
`expected 1 == 2; i = 123; hi; str = foo`; moreover extra arguments render
in left-to-right order, each preceded by `; `, named expressions as
`name = value` and bare literals as the literal itself. -/
theorem assert_suffix_rendering :
    (assertSuffix "1 == 2" [Arg.named "i" "123", Arg.literal "hi", Arg.named "str" "foo"]
        = "expected 1 == 2; i = 123; hi; str = foo")
      ∧ (∀ (a : Arg) (rest : List Arg),
          renderArgs (a :: rest) = "; " ++ Arg.render a ++ renderArgs rest)
      ∧ (∀ n v : String, Arg.render (Arg.named n v) = n ++ " = " ++ v)
      ∧ (∀ s : String, Arg.render (Arg.literal s) = s) :=
  ⟨by decide, fun _ _ => rfl, fun _ _ => rfl, fun _ => rfl⟩

/-- C4: a log call below the threshold produces no handler invocation; a log
call at or above the threshold produces exactly one logMessage with the exact
`severity: file:line: text\n` rendering (severity lowercase).  At the default
threshold (warning), an info log produces nothing; at threshold info, the
identical call produces exactly one logMessage. -/
theorem log_threshold_spec (threshold sev : Severity) (file : String)
    (line : Nat) (text : String) :
    (sev.level < threshold.level → log threshold sev file line text = [])
      ∧ (threshold.level ≤ sev.level →
          log threshold sev file line text
            = [HandlerEvent.logMessage
                (sev.name ++ ": " ++ fileLine file line ++ ": " ++ text ++ "\n")])
      ∧ log defaultLogLevel Severity.info file line text = []
      ∧ log Severity.info Severity.info file line text
          = [HandlerEvent.logMessage
              ("info: " ++ fileLine file line ++ ": " ++ text ++ "\n")] := by
  refine ⟨fun h => ?_, fun h => ?_, rfl, rfl⟩
  · unfold log
    rw [if_pos h]
  · unfold log
    rw [if_neg (Nat.not_lt.mpr h)]

/-- Witness for C4: at the default threshold an info log is suppressed, and
an error log is delivered with the exact rendering. -/
theorem log_threshold_spec_witness :
    log Severity.warning Severity.info "f.c++" 1 "Info." = []
      ∧ log Severity.warning Severity.error "f.c++" 2 "x"
          = [HandlerEvent.logMessage
              (Severity.error.name ++ ": " ++ fileLine "f.c++" 2 ++ ": " ++ "x" ++ "\n")] :=
  ⟨(log_threshold_spec Severity.warning Severity.info "f.c++" 1 "Info.").1 (by decide),
   (log_threshold_spec Severity.warning Severity.error "f.c++" 2 "x").2.1 (by decide)⟩

/-- C5: the assertion operation on a false condition with no recovery block
dispatches exactly one fatal-exception handler invocation, and the outcome is
`unwound` — control never returns normally to the call site. -/
theorem assert_fatal_dispatch (σ : Type) (chain : List ContextFrame)
    (file : String) (line : Nat) (condText : String) (args : List Arg)
    (st : σ) :
    assertCondition σ chain file line false condText args none st
      = ([HandlerEvent.fatalException
            (exceptionText chain file line
              (Nature.leadIn Nature.bug ++ assertSuffix condText args))],
         Outcome.unwound) :=
  rfl

/-- C6: the assertion operation on a false condition with a recovery block
dispatches exactly one recoverable-exception handler invocation and then runs
the recovery block (the outcome is `recovered (r st)`: the block transformed
the state and its break / fall-through continued after the enclosing
construct); on a true condition the recovery block is never executed. -/
theorem assert_recoverable_dispatch (σ : Type) (chain : List ContextFrame)
    (file : String) (line : Nat) (condText : String) (args : List Arg)
    (r : σ → σ) (st : σ) :
    (assertCondition σ chain file line false condText args (some r) st
        = ([HandlerEvent.recoverableException
              (exceptionText chain file line
                (Nature.leadIn Nature.bug ++ assertSuffix condText args))],
           Outcome.recovered (r st)))
      ∧ assertCondition σ chain file line true condText args (some r) st
          = ([], Outcome.fellThrough st) :=
  ⟨rfl, rfl⟩

/-- C7: a syscall wrapper around a call that failed (negative result, errno
rendered as errStr) dispatches an exception whose text contains
`error from OS: ` followed by the call's source text, `: `, the platform
error string, and the extra args in the standard rendering; with a recovery
block the dispatch is recoverable, the recovery block runs, and the captured
result variable holds the failing (negative) call result; without one the
dispatch is fatal. -/
theorem syscall_failure_dispatch (σ : Type) (chain : List ContextFrame)
    (file : String) (line : Nat) (callResult : Int) (errStr callText : String)
    (args : List Arg) (r : σ → σ) (st : σ) (hfail : callResult < 0) :
    (∃ p : String,
        exceptionText chain file line (syscallMessage callText errStr args)
          = p ++ ("error from OS: " ++ callText ++ ": " ++ errStr
              ++ renderArgs args ++ "\n"))
      ∧ syscall σ chain file line callResult errStr callText args (some r) st
          = ([HandlerEvent.recoverableException
                (exceptionText chain file line (syscallMessage callText errStr args))],
             Outcome.recovered (r st), callResult)
      ∧ syscall σ chain file line callResult errStr callText args none st
          = ([HandlerEvent.fatalException
                (exceptionText chain file line (syscallMessage callText errStr args))],
             Outcome.unwound, callResult) := by
  refine ⟨⟨renderFrames chain.reverse ++ fileLine file line ++ ": ", ?_⟩, ?_, ?_⟩
  · rw [exceptionText_eq]
    simp only [exceptionLine, syscallMessage, Nature.leadIn, String.append_assoc]
  · unfold syscall
    rw [if_pos hfail]
  · unfold syscall
    rw [if_pos hfail]

/-- Witness for C7: the concrete scenario of TEST(Logging, Syscall) —
close(fd) failing with result -1 and the EBADF error string, extra args
i = 123, "bar", str = foo, recovery block setting a recovered flag. -/
theorem syscall_failure_dispatch_witness :
    ((∃ p : String,
        exceptionText [] "logging-test.c++" 169
            (syscallMessage "close(fd)" "Bad file descriptor"
              [Arg.named "i" "123", Arg.literal "bar", Arg.named "str" "foo"])
          = p ++ ("error from OS: " ++ "close(fd)" ++ ": " ++ "Bad file descriptor"
              ++ renderArgs [Arg.named "i" "123", Arg.literal "bar", Arg.named "str" "foo"]
              ++ "\n"))
      ∧ syscall Bool [] "logging-test.c++" 169 (-1) "Bad file descriptor" "close(fd)"
            [Arg.named "i" "123", Arg.literal "bar", Arg.named "str" "foo"]
            (some (fun _ => true)) false
          = ([HandlerEvent.recoverableException
                (exceptionText [] "logging-test.c++" 169
                  (syscallMessage "close(fd)" "Bad file descriptor"
                    [Arg.named "i" "123", Arg.literal "bar", Arg.named "str" "foo"]))],
             Outcome.recovered true, -1)
      ∧ syscall Bool [] "logging-test.c++" 169 (-1) "Bad file descriptor" "close(fd)"
            [Arg.named "i" "123", Arg.literal "bar", Arg.named "str" "foo"]
            none false
          = ([HandlerEvent.fatalException
                (exceptionText [] "logging-test.c++" 169
                  (syscallMessage "close(fd)" "Bad file descriptor"
                    [Arg.named "i" "123", Arg.literal "bar", Arg.named "str" "foo"]))],
             Outcome.unwound, -1)) :=
  syscall_failure_dispatch Bool [] "logging-test.c++" 169 (-1) "Bad file descriptor"
    "close(fd)" [Arg.named "i" "123", Arg.literal "bar", Arg.named "str" "foo"]
    (fun _ => true) false (by decide)

/-- Witness for C10: moving out of a Maybe holding 7 leaves the source
not-equal to null. -/
theorem maybe_move_leaves_source_set_witness :
    ((Maybe.moveConstruct (Maybe.fromPointer (some 7))).2).neNull = true ∧
    ((Maybe.moveConstruct (Maybe.fromPointer (some 7))).1).neNull = true ∧
    ((Maybe.moveAssign (Maybe.fromPointer (none : Option Nat))
        (Maybe.fromPointer (some 7))).2).neNull = true ∧
    ((Maybe.moveAssign (Maybe.fromPointer (none : Option Nat))
        (Maybe.fromPointer (some 7))).1).neNull = true :=
  maybe_move_leaves_source_set (Maybe.fromPointer (some 7))
    (Maybe.fromPointer (none : Option Nat)) rfl

end KJ
